import Mathlib

/-!
# qord: interaction routing, handler registry and outbound call surface

A shallow embedding of `client.go`, `client-handler.go`, `interaction.go` and
`constant.go`, with the `Message` type of `message.go`.

Conventions of the embedding.

* A Go callback (`func(...)`, possibly nil) is an `Option` of a Lean function that
  returns the list of effects its body performs.  `Client.eventHandler` returns the
  list of effects it performs itself, the effects of every callback it invokes spliced
  in at the place of the call.
* The types of the `tempest` library whose fields this repository never reads are the
  fields of a signature `Tempest`; `encoding/json` and the `tempest` functions are the
  fields of `Lib`.
* A function that can panic returns a `Result`.
* An outbound operation returns a `Run`: the calls it made on the rate limiter and on
  the transport, in order, and how it ended.
-/

namespace Qord

/-! ## Data model -/

/-- Snowflake of tempest (a `uint64` identifier). -/
abbrev Snowflake := Nat

/-- Decimal rendering, `Snowflake.String()` of tempest. -/
def snowflakeString (s : Snowflake) : String := toString s

/-- Raw bytes (`[]byte`, `json.RawMessage`). -/
abbrev Bytes := String

/-- Types of tempest that this repository passes around without reading them, with the
zero values the code returns next to an error. -/
structure Tempest where
  CommandInteractionData : Type
  ComponentInteractionData : Type
  ModalInteractionData : Type
  User : Type
  Member : Type
  Entitlement : Type
  TestEntitlementPayload : Type
  File : Type
  zeroUser : User
  zeroMember : Member
  zeroEntitlement : Entitlement

/-- What a callback or a trace call does, as seen from outside. -/
inductive Effect where
  /-- One `Printf(format, v...)` on the trace logger of the client. -/
  | Printf (format : String) (v : List String)
  /-- Anything application code does inside a handler it supplied. -/
  | app (note : String)
  deriving DecidableEq, Repr

/-- The packet the gateway hands to the event handler (fields read here). -/
structure EventPacket where
  Event : String
  Data : Bytes
  deriving DecidableEq, Repr

/-- The fields of `tempest.Interaction` that the router reads. -/
structure TempestInteraction where
  Type_ : Nat
  Data : Bytes
  deriving DecidableEq, Repr

/-- The fields of `tempest.Message` that this repository reads or writes. -/
structure TempestMessage where
  ID : Snowflake
  ChannelID : Snowflake
  Content : String
  deriving DecidableEq, Repr

/-- Go errors met on the outbound surface. -/
inductive GoError where
  /-- An error value handed back by `tempest.Rest`. -/
  | rest (e : String)
  /-- A value made on the spot by `errors.New(text)`. -/
  | new (text : String)
  /-- An error value handed back by `tempest.StringToSnowflake`. -/
  | snowflake (e : String)
  deriving DecidableEq, Repr

/-- How a call that may panic ends. -/
inductive Result (α : Type) where
  | returned (a : α)
  | panicked (msg : String)

/-- JSON payload argument of a transport request (`jsonPayload any`). -/
inductive Payload (T : Tempest) where
  | nil
  | message (m : TempestMessage)
  | recipient (userID : Snowflake)
  | testEntitlement (p : T.TestEntitlementPayload)

/-- A call an outbound operation makes on one of its two collaborators. -/
inductive Call (T : Tempest) where
  | WaitOrSet (key : Snowflake) (rate : Nat) (regenTime : Nat)
  | Request (method : String) (route : String) (payload : Payload T)
  | RequestWithFiles (method : String) (route : String) (payload : Payload T)
      (files : List T.File)

/-- The transport (`tempest.Rest`): what it answers to each request. -/
structure Rest (T : Tempest) where
  Request : String → String → Payload T → Except String Bytes
  RequestWithFiles : String → String → Payload T → List T.File → Except String Bytes

/-- The client without its handler slots: what an interaction reaches through its
`Client` back-reference.  `Trace` records where the trace logger writes (`os.Stdout`
when set, `io.Discard` otherwise).  The `Gateway` field is left out (the shard manager
is not part of the sources); `RateLimiter` is non-nil exactly when `respectRateLimits`
is set, and calls on it are logged as `Call.WaitOrSet`. -/
structure ClientCore (T : Tempest) where
  ApplicationID : Snowflake
  Rest : Rest T
  respectRateLimits : Bool
  Trace : Bool

/-- `Interaction` of `interaction.go`: the tempest interaction plus shard and client. -/
structure Interaction (T : Tempest) extends TempestInteraction where
  ShardID : Nat
  Client : ClientCore T

structure CommandInteraction (T : Tempest) where
  Interaction : Interaction T
  Data : T.CommandInteractionData

structure ComponentInteraction (T : Tempest) where
  Interaction : Interaction T
  Data : T.ComponentInteractionData

structure ModalInteraction (T : Tempest) where
  Interaction : Interaction T
  Data : T.ModalInteractionData

/-- `Message` of `message.go`. -/
structure Message (T : Tempest) extends TempestMessage where
  ShardID : Nat
  Client : ClientCore T
  replyMsgID : Snowflake

/-- `Client` of `client.go`. -/
structure Client (T : Tempest) extends ClientCore T where
  customEventHandler : Option (Nat → EventPacket → List Effect)
  messageHandler : Message T → List Effect
  commandInteractionHandler : CommandInteraction T → List Effect
  componentInteractionHandler : ComponentInteraction T → List Effect
  modalInteractionHandler : ModalInteraction T → List Effect

/-- `ClientOptions` of `client.go`. -/
structure ClientOptions (T : Tempest) where
  Token : String
  EventHandler : Option (Nat → EventPacket → List Effect)
  MessageHandler : Option (Message T → List Effect)
  CommandInteractionHandler : Option (CommandInteraction T → List Effect)
  ComponentInteractionHandler : Option (ComponentInteraction T → List Effect)
  ModalInteractionHandler : Option (ModalInteraction T → List Effect)
  AcceptMessageContent : Bool
  RespectRateLimits : Bool
  Trace : Bool

/-- A decoded JSON value, as `json.Unmarshal` sees it when the target is `any`. -/
inductive JVal where
  | null
  | bool (b : Bool)
  | num (literal : String)
  | str (s : String)
  | arr (items : List JVal)
  | obj (members : List (String × JVal))

/-- The library functions the code calls: `encoding/json`, `encoding/base64` and
tempest.  A decoder answers `.error text` where `json.Unmarshal` returns an error whose
message is `text`. -/
structure Lib (T : Tempest) where
  unmarshalInteraction : Bytes → Except String TempestInteraction
  unmarshalCommandData : Bytes → Except String T.CommandInteractionData
  unmarshalComponentData : Bytes → Except String T.ComponentInteractionData
  unmarshalModalData : Bytes → Except String T.ModalInteractionData
  unmarshalMessage : Bytes → Except String TempestMessage
  unmarshalUser : Bytes → Except String T.User
  unmarshalMember : Bytes → Except String T.Member
  unmarshalEntitlement : Bytes → Except String T.Entitlement
  /-- Decoding into a slice: the elements stored so far, and the error if any. -/
  unmarshalEntitlements : Bytes → List T.Entitlement × Option String
  /-- The JSON value of a text, `none` when the text is not valid JSON. -/
  parseJSON : Bytes → Option JVal
  StringToSnowflake : String → Except String Snowflake
  base64Decode : String → Except String String
  NewRest : String → Rest T

/-! ## Constants -/

/-- Modelled from the spec: the event name constant is declared in the gateway part of
the package, which is not among the sources; scenario 1 of the spec gives its value. -/
def INTERACTION_CREATE_EVENT : String := "INTERACTION_CREATE"

/-- Interaction types of tempest (the values of the platform). -/
def PING_INTERACTION_TYPE : Nat := 1
def APPLICATION_COMMAND_INTERACTION_TYPE : Nat := 2
def MESSAGE_COMPONENT_INTERACTION_TYPE : Nat := 3
def APPLICATION_COMMAND_AUTO_COMPLETE_INTERACTION_TYPE : Nat := 4
def MODAL_SUBMIT_INTERACTION_TYPE : Nat := 5

/-- One second of `time.Duration`, in nanoseconds. -/
def Second : Nat := 1000000000

def message_rate : Nat := 5
def message_regen_time : Nat := Second * 5
def target_rate : Nat := 10
def target_regen_time : Nat := Second

/-! ## client-handler.go -/

/-- `Client.tracef`: one `Printf` on the trace logger, the format prefixed. -/
def ClientCore.tracef {T : Tempest} (_client : ClientCore T) (format : String)
    (v : List String) : List Effect :=
  [Effect.Printf ("[CLIENT] " ++ format) v]

def envelopeFailFormat : String :=
  "Received interaction event but failed to parse it: %v"

def commandFailFormat : String :=
  "Received command/auto complete interaction event but failed to parse its data: %v"

def componentFailFormat : String :=
  "Received component interaction event but failed to parse its data: %v"

def modalFailFormat : String :=
  "Received modal interaction event but failed to parse its data: %v"

/-- `Client.eventHandler`. -/
def eventHandler {T : Tempest} (lib : Lib T) (client : Client T) (shardID : Nat)
    (packet : EventPacket) : List Effect :=
  (match client.customEventHandler with
    | some h => h shardID packet
    | none => []) ++
  (if packet.Event ≠ INTERACTION_CREATE_EVENT then []
  else
    match lib.unmarshalInteraction packet.Data with
    | .error err => client.tracef envelopeFailFormat [err]
    | .ok decoded =>
      let interaction : Interaction T :=
        { toTempestInteraction := decoded, ShardID := shardID,
          Client := client.toClientCore }
      if interaction.Type_ = APPLICATION_COMMAND_INTERACTION_TYPE ∨
          interaction.Type_ = APPLICATION_COMMAND_AUTO_COMPLETE_INTERACTION_TYPE then
        match lib.unmarshalCommandData interaction.Data with
        | .error err => client.tracef commandFailFormat [err]
        | .ok data =>
          client.commandInteractionHandler { Interaction := interaction, Data := data }
      else if interaction.Type_ = MESSAGE_COMPONENT_INTERACTION_TYPE then
        match lib.unmarshalComponentData interaction.Data with
        | .error err => client.tracef componentFailFormat [err]
        | .ok data =>
          client.componentInteractionHandler { Interaction := interaction, Data := data }
      else if interaction.Type_ = MODAL_SUBMIT_INTERACTION_TYPE then
        match lib.unmarshalModalData interaction.Data with
        | .error err => client.tracef modalFailFormat [err]
        | .ok data =>
          client.modalInteractionHandler { Interaction := interaction, Data := data }
      else [])

def undefinedMessageFormat : String :=
  "You see this trace message because client received text message but there's no defined handler for it."

def undefinedCommandFormat : String :=
  "You see this trace message because client received slash command, user command, message command or command auto complete interaction but there's no defined handler for it."

def undefinedComponentFormat : String :=
  "You see this trace message because client received component interaction but there's no defined handler for it."

def undefinedModalFormat : String :=
  "You see this trace message because client received modal interaction but there's no defined handler for it."

def undefinedMessageHandler {T : Tempest} (msg : Message T) : List Effect :=
  msg.Client.tracef undefinedMessageFormat []

def undefinedCommandHandler {T : Tempest} (itx : CommandInteraction T) : List Effect :=
  itx.Interaction.Client.tracef undefinedCommandFormat []

def undefinedComponentHandler {T : Tempest} (itx : ComponentInteraction T) : List Effect :=
  itx.Interaction.Client.tracef undefinedComponentFormat []

def undefinedModalHandler {T : Tempest} (itx : ModalInteraction T) : List Effect :=
  itx.Interaction.Client.tracef undefinedModalFormat []

/-! ## client.go: construction -/

/-- The part of a text before its first dot: `strings.Split(s, ".")[0]` (the split of
a text by a non-empty separator always has a first element). -/
def firstSegment (s : String) : String :=
  String.mk (s.data.takeWhile (fun c => c ≠ '.'))

/-- Calling `strings.Replace(s, old, new, 1)` for a non-empty `old`: the leftmost
occurrence is replaced. -/
def replaceFirst (old new : List Char) : List Char → List Char
  | [] => []
  | c :: cs =>
    if old.isPrefixOf (c :: cs) then new ++ (c :: cs).drop old.length
    else c :: replaceFirst old new cs

def extractFailText : String := "failed to extract bot user ID from bot token: "

/-- `NewClient`: the client, and the effects of the construction (one trace line when
tracing is asked for). -/
def NewClient {T : Tempest} (lib : Lib T) (opt : ClientOptions T) :
    Result (Client T × List Effect) :=
  let strs0 := firstSegment opt.Token
  let hexID := String.mk (replaceFirst "Bot ".data [] strs0.data)
  match lib.base64Decode hexID with
  | .error err => .panicked (extractFailText ++ err)
  | .ok byteID =>
    match lib.StringToSnowflake byteID with
    | .error err => .panicked (extractFailText ++ err)
    | .ok botUserID =>
      let self0 : Client T :=
        { ApplicationID := botUserID
          Rest := lib.NewRest opt.Token
          respectRateLimits := false
          Trace := false
          customEventHandler := opt.EventHandler
          messageHandler := undefinedMessageHandler
          commandInteractionHandler := undefinedCommandHandler
          componentInteractionHandler := undefinedComponentHandler
          modalInteractionHandler := undefinedModalHandler }
      let self1 : Client T :=
        match opt.MessageHandler with
        | some h => { self0 with messageHandler := h }
        | none => self0
      let self2 : Client T :=
        match opt.CommandInteractionHandler with
        | some h => { self1 with commandInteractionHandler := h }
        | none => self1
      let self3 : Client T :=
        match opt.ComponentInteractionHandler with
        | some h => { self2 with componentInteractionHandler := h }
        | none => self2
      let self4 : Client T :=
        match opt.ModalInteractionHandler with
        | some h => { self3 with modalInteractionHandler := h }
        | none => self3
      let self5 : Client T :=
        if opt.RespectRateLimits then { self4 with respectRateLimits := true } else self4
      if opt.Trace then
        let self6 : Client T := { self5 with Trace := true }
        .returned (self6, self6.tracef "Main client tracing enabled." [])
      else .returned (self5, [])

/-! ## client.go: outbound call surface -/

/-- What an outbound operation did: its calls on the rate limiter and the transport,
in order, and how it ended. -/
structure Run (T : Tempest) (α : Type) where
  calls : List (Call T)
  result : Result α

def MethodGet : String := "GET"
def MethodPost : String := "POST"
def MethodPatch : String := "PATCH"
def MethodDelete : String := "DELETE"

def parseFailText : String := "failed to parse received data from discord"

/-- The zero value `tempest.Message{}`. -/
def zeroMessage : TempestMessage := { ID := 0, ChannelID := 0, Content := "" }

/-- The guarded limiter call that opens an operation:
`if client.respectRateLimits { client.RateLimiter.WaitOrSet(key, rate, regenTime) }`. -/
def limiterGate {T : Tempest} (client : Client T) (key : Snowflake) (rate regenTime : Nat) :
    List (Call T) :=
  if client.respectRateLimits then [Call.WaitOrSet key rate regenTime] else []

/-- `Client.SendMessage`. -/
def SendMessage {T : Tempest} (lib : Lib T) (client : Client T) (channelID : Snowflake)
    (message : TempestMessage) (files : List T.File) :
    Run T (TempestMessage × Option GoError) :=
  let route := "/channels/" ++ snowflakeString channelID ++ "/messages"
  let calls := limiterGate client channelID message_rate message_regen_time ++
    [Call.RequestWithFiles MethodPost route (.message message) files]
  match client.Rest.RequestWithFiles MethodPost route (.message message) files with
  | .error err => ⟨calls, .returned (zeroMessage, some (.rest err))⟩
  | .ok raw =>
    match lib.unmarshalMessage raw with
    | .error _ => ⟨calls, .returned (zeroMessage, some (.new parseFailText))⟩
    | .ok res => ⟨calls, .returned (res, none)⟩

/-- `Client.SendLinearMessage`. -/
def SendLinearMessage {T : Tempest} (lib : Lib T) (client : Client T)
    (channelID : Snowflake) (content : String) : Run T (TempestMessage × Option GoError) :=
  SendMessage lib client channelID { zeroMessage with Content := content } []

/-- A value stored in the `map[string]any` of `SendPrivateMessage`. -/
inductive MapVal where
  | snowflake (id : Snowflake)
  | json (v : JVal)

/-- The assignment `m[key] = v` on a map held as an association list. -/
def mapSet (m : List (String × MapVal)) (key : String) (v : MapVal) :
    List (String × MapVal) :=
  (key, v) :: m.filter (fun kv => kv.1 ≠ key)

/-- `json.Unmarshal(raw, &res)` for `res` a `map[string]any`: a JSON object stores its
members into the existing map, in order; `null` sets the map to nil; any other JSON
value, and a text that is not JSON, is an error (`none`). -/
def unmarshalIntoMap {T : Tempest} (lib : Lib T) (raw : Bytes)
    (res : List (String × MapVal)) : Option (List (String × MapVal)) :=
  match lib.parseJSON raw with
  | some (.obj members) => some (members.foldl (fun m kv => mapSet m kv.1 (.json kv.2)) res)
  | some .null => some []
  | _ => none

/-- The dynamic type Go reports for a stored value in a failed type assertion. -/
def goTypeName : Option MapVal → String
  | none => "nil"
  | some (.snowflake _) => "tempest.Snowflake"
  | some (.json .null) => "nil"
  | some (.json (.bool _)) => "bool"
  | some (.json (.num _)) => "float64"
  | some (.json (.str _)) => "string"
  | some (.json (.arr _)) => "[]interface \x7b\x7d"
  | some (.json (.obj _)) => "map[string]interface \x7b\x7d"

/-- `Client.SendPrivateMessage`. -/
def SendPrivateMessage {T : Tempest} (lib : Lib T) (client : Client T) (userID : Snowflake)
    (content : TempestMessage) (files : List T.File) :
    Run T (TempestMessage × Option GoError) :=
  let res : List (String × MapVal) := mapSet [] "recipient_id" (.snowflake userID)
  let calls := limiterGate client userID message_rate message_regen_time ++
    [Call.Request MethodPost "/users/@me/channels" (.recipient userID)]
  match client.Rest.Request MethodPost "/users/@me/channels" (.recipient userID) with
  | .error err => ⟨calls, .returned (zeroMessage, some (.rest err))⟩
  | .ok raw =>
    match unmarshalIntoMap lib raw res with
    | none => ⟨calls, .returned (zeroMessage, some (.new parseFailText))⟩
    | some res =>
      match res.lookup "id" with
      | some (.json (.str id)) =>
        match lib.StringToSnowflake id with
        | .error err => ⟨calls, .returned (zeroMessage, some (.snowflake err))⟩
        | .ok channelID =>
          let sent := SendMessage lib client channelID content files
          match sent.result with
          | .returned (msg, err) =>
            ⟨calls ++ sent.calls, .returned ({ msg with ChannelID := channelID }, err)⟩
          | .panicked m => ⟨calls ++ sent.calls, .panicked m⟩
      | other =>
        ⟨calls, .panicked ("interface conversion: interface \x7b\x7d is " ++ goTypeName other ++
          ", not string")⟩

/-- The three message operations that return only an error. -/
def messageOp {T : Tempest} (client : Client T) (channelID : Snowflake) (method route : String)
    (payload : Payload T) : Run T (Option GoError) :=
  let calls := limiterGate client channelID message_rate message_regen_time ++
    [Call.Request method route payload]
  match client.Rest.Request method route payload with
  | .error err => ⟨calls, .returned (some (.rest err))⟩
  | .ok _ => ⟨calls, .returned none⟩

/-- `Client.EditMessage`. -/
def EditMessage {T : Tempest} (client : Client T) (channelID messageID : Snowflake)
    (content : TempestMessage) : Run T (Option GoError) :=
  messageOp client channelID MethodPatch
    ("/channels/" ++ snowflakeString channelID ++ "/messages/" ++ snowflakeString messageID)
    (.message content)

/-- `Client.DeleteMessage`. -/
def DeleteMessage {T : Tempest} (client : Client T) (channelID messageID : Snowflake) :
    Run T (Option GoError) :=
  messageOp client channelID MethodDelete
    ("/channels/" ++ snowflakeString channelID ++ "/messages/" ++ snowflakeString messageID)
    .nil

/-- `Client.CrosspostMessage`. -/
def CrosspostMessage {T : Tempest} (client : Client T) (channelID messageID : Snowflake) :
    Run T (Option GoError) :=
  messageOp client channelID MethodPost
    ("/channels/" ++ snowflakeString channelID ++ "/messages/" ++ snowflakeString messageID ++
      "/crosspost")
    .nil

/-- `Client.FetchUser`. -/
def FetchUser {T : Tempest} (lib : Lib T) (client : Client T) (id : Snowflake) :
    Run T (T.User × Option GoError) :=
  let route := "/users/" ++ snowflakeString id
  let calls := limiterGate client client.ApplicationID target_rate target_regen_time ++
    [Call.Request MethodGet route .nil]
  match client.Rest.Request MethodGet route .nil with
  | .error err => ⟨calls, .returned (T.zeroUser, some (.rest err))⟩
  | .ok raw =>
    match lib.unmarshalUser raw with
    | .error _ => ⟨calls, .returned (T.zeroUser, some (.new parseFailText))⟩
    | .ok res => ⟨calls, .returned (res, none)⟩

/-- `Client.FetchMember`. -/
def FetchMember {T : Tempest} (lib : Lib T) (client : Client T) (guildID memberID : Snowflake) :
    Run T (T.Member × Option GoError) :=
  let route := "/guilds/" ++ snowflakeString guildID ++ "/members/" ++ snowflakeString memberID
  let calls := limiterGate client guildID target_rate target_regen_time ++
    [Call.Request MethodGet route .nil]
  match client.Rest.Request MethodGet route .nil with
  | .error err => ⟨calls, .returned (T.zeroMember, some (.rest err))⟩
  | .ok raw =>
    match lib.unmarshalMember raw with
    | .error _ => ⟨calls, .returned (T.zeroMember, some (.new parseFailText))⟩
    | .ok res => ⟨calls, .returned (res, none)⟩

def indexPanicText : String := "runtime error: index out of range [0] with length 0"

/-- `Client.FetchEntitlementsPage`.  The test `queryFilter[0] != '?'` reads the first
byte of the text, which is `?` exactly when its first character is; on the empty text
the index expression panics. -/
def FetchEntitlementsPage {T : Tempest} (lib : Lib T) (client : Client T)
    (queryFilter : String) : Run T (List T.Entitlement × Option GoError) :=
  match queryFilter.data with
  | [] => ⟨[], .panicked indexPanicText⟩
  | c :: _ =>
    let queryFilter := if c ≠ '?' then "?" ++ queryFilter else queryFilter
    let route := "/applications/" ++ snowflakeString client.ApplicationID ++ "/entitlements" ++
      queryFilter
    let calls := [Call.Request MethodGet route .nil]
    match client.Rest.Request MethodGet route .nil with
    | .error err => ⟨calls, .returned ([], some (.rest err))⟩
    | .ok raw =>
      match lib.unmarshalEntitlements raw with
      | (res, some _) => ⟨calls, .returned (res, some (.new parseFailText))⟩
      | (res, none) => ⟨calls, .returned (res, none)⟩

/-- `Client.FetchEntitlement`. -/
def FetchEntitlement {T : Tempest} (lib : Lib T) (client : Client T)
    (entitlementID : Snowflake) : Run T (T.Entitlement × Option GoError) :=
  let route := "/applications/" ++ snowflakeString client.ApplicationID ++ "/entitlements/" ++
    snowflakeString entitlementID
  let calls := [Call.Request MethodGet route .nil]
  match client.Rest.Request MethodGet route .nil with
  | .error err => ⟨calls, .returned (T.zeroEntitlement, some (.rest err))⟩
  | .ok raw =>
    match lib.unmarshalEntitlement raw with
    | .error _ => ⟨calls, .returned (T.zeroEntitlement, some (.new parseFailText))⟩
    | .ok res => ⟨calls, .returned (res, none)⟩

/-- The three entitlement operations that return only an error. -/
def entitlementOp {T : Tempest} (client : Client T) (method route : String)
    (payload : Payload T) : Run T (Option GoError) :=
  match client.Rest.Request method route payload with
  | .error err => ⟨[Call.Request method route payload], .returned (some (.rest err))⟩
  | .ok _ => ⟨[Call.Request method route payload], .returned none⟩

/-- `Client.ConsumeEntitlement`. -/
def ConsumeEntitlement {T : Tempest} (client : Client T) (entitlementID : Snowflake) :
    Run T (Option GoError) :=
  entitlementOp client MethodPost
    ("/applications/" ++ snowflakeString client.ApplicationID ++ "/entitlements/" ++
      snowflakeString entitlementID ++ "/consume")
    .nil

/-- `Client.CreateTestEntitlement`. -/
def CreateTestEntitlement {T : Tempest} (client : Client T)
    (payload : T.TestEntitlementPayload) : Run T (Option GoError) :=
  entitlementOp client MethodPost
    ("/applications/" ++ snowflakeString client.ApplicationID ++ "/entitlements")
    (.testEntitlement payload)

/-- `Client.DeleteTestEntitlement`. -/
def DeleteTestEntitlement {T : Tempest} (client : Client T) (entitlementID : Snowflake) :
    Run T (Option GoError) :=
  entitlementOp client MethodDelete
    ("/applications/" ++ snowflakeString client.ApplicationID ++ "/entitlements/" ++
      snowflakeString entitlementID)
    .nil

/-! ## Rate limiter

The limiter (`RateLimiter`, `NewRateLimiter`, `WaitOrSet`) is declared in a file of the
package that is not among the sources; it is modelled from section 4.3 of the
specification.  Time is a number of nanoseconds; an operation takes the instant `now`
at which it is called and returns, next to the new state, how long it blocked. -/

/-- Modelled from the spec: the bucket of section 3, `{availableTokens, lastRegenAt,
capacity, window}`; the type is missing from the sources. -/
structure RateLimiterBucket where
  availableTokens : Int
  lastRegenAt : Nat
  capacity : Nat
  window : Nat
  deriving DecidableEq, Repr

/-- Modelled from the spec: the map from target key to bucket, created lazily and never
evicted; the type is missing from the sources. -/
structure RateLimiter where
  buckets : Snowflake → Option RateLimiterBucket

/-- Modelled from the spec: a limiter with no bucket; `NewRateLimiter` is missing from
the sources. -/
def NewRateLimiter : RateLimiter := ⟨fun _ => none⟩

/-- Store a bucket under a key. -/
def RateLimiter.store (rl : RateLimiter) (key : Snowflake) (b : RateLimiterBucket) :
    RateLimiter :=
  ⟨fun k => if k = key then some b else rl.buckets k⟩

/-- Modelled from the spec: `RateLimiter.WaitOrSet` is missing from the sources; this is
`consumeOrWait(key, capacity, window)` of section 4.3.  Absent bucket: create it full at
`now`, consume one token, return at once.  Present bucket: with
`elapsed = now - lastRegenAt`, a full reset when `elapsed >= window`; then, if a token is
left, consume it and return at once; else block for `window - elapsed`, reset at the
instant reached, consume one token and return. -/
def RateLimiter.WaitOrSet (rl : RateLimiter) (now : Nat) (key : Snowflake)
    (capacity window : Nat) : RateLimiter × Nat :=
  match rl.buckets key with
  | none =>
    (rl.store key
      { availableTokens := (capacity : Int) - 1, lastRegenAt := now,
        capacity := capacity, window := window }, 0)
  | some b =>
    let elapsed := now - b.lastRegenAt
    let b1 : RateLimiterBucket :=
      if elapsed ≥ window then { b with availableTokens := capacity, lastRegenAt := now }
      else b
    if b1.availableTokens > 0 then
      (rl.store key { b1 with availableTokens := b1.availableTokens - 1 }, 0)
    else
      let wait := window - elapsed
      (rl.store key
        { b1 with availableTokens := (capacity : Int) - 1, lastRegenAt := now + wait }, wait)

/-- Calls made one after the other on one key with one policy, the k-th at the k-th
instant of `arrivals`: the final state and how long each call blocked. -/
def callsInSequence (rl : RateLimiter) (key : Snowflake) (capacity window : Nat) :
    List Nat → RateLimiter × List Nat
  | [] => (rl, [])
  | t :: ts =>
    let step := rl.WaitOrSet t key capacity window
    let tail := callsInSequence step.1 key capacity window ts
    (tail.1, step.2 :: tail.2)

/-! ## Concrete objects used to evaluate the definitions -/

/-- An instance of the signature: every payload is kept as its JSON text. -/
@[reducible]
def demoT : Tempest :=
  { CommandInteractionData := String
    ComponentInteractionData := String
    ModalInteractionData := String
    User := String
    Member := String
    Entitlement := String
    TestEntitlementPayload := String
    File := String
    zeroUser := ""
    zeroMember := ""
    zeroEntitlement := "" }

/-- The text `{"name":"ping"}`. -/
def pingData : String := "\x7b\"name\":\"ping\"\x7d"

/-- A command interaction, `{"type":2,"data":{"name":"ping"}}`. -/
def commandJSON : String := "\x7b\"type\":2,\"data\":\x7b\"name\":\"ping\"\x7d\x7d"

/-- A command interaction whose data is a number, `{"type":2,"data":7}`. -/
def badCommandJSON : String := "\x7b\"type\":2,\"data\":7\x7d"

/-- A ping interaction, `{"type":1}`. -/
def pingJSON : String := "\x7b\"type\":1\x7d"

/-- The empty JSON object, `{}`. -/
def emptyObjectJSON : String := "\x7b\x7d"

/-- An object whose id is a number, `{"id":5}`. -/
def numericIdJSON : String := "\x7b\"id\":5\x7d"

/-- A message, `{"content":"hi"}`. -/
def messageJSON : String := "\x7b\"content\":\"hi\"\x7d"

def demoTypeError : String := "json: cannot unmarshal number into Go value"

def demoSyntaxError : String := "unexpected end of JSON input"

/-- A transport that answers every request with the empty JSON object. -/
def demoRest : Rest demoT :=
  { Request := fun _ _ _ => .ok emptyObjectJSON
    RequestWithFiles := fun _ _ _ _ => .ok emptyObjectJSON }

/-- A table of the library on the handful of texts used below. -/
def demoLib : Lib demoT :=
  { unmarshalInteraction := fun raw =>
      if raw = commandJSON then .ok { Type_ := 2, Data := pingData }
      else if raw = badCommandJSON then .ok { Type_ := 2, Data := "7" }
      else if raw = pingJSON then .ok { Type_ := 1, Data := "" }
      else .error demoSyntaxError
    unmarshalCommandData := fun raw =>
      if raw = pingData then .ok "ping" else .error demoTypeError
    unmarshalComponentData := fun raw =>
      if raw = pingData then .ok "ping" else .error demoTypeError
    unmarshalModalData := fun raw =>
      if raw = pingData then .ok "ping" else .error demoTypeError
    unmarshalMessage := fun raw =>
      if raw = messageJSON then .ok { ID := 1, ChannelID := 2, Content := "hi" }
      else if raw = emptyObjectJSON then .ok zeroMessage
      else .error demoSyntaxError
    unmarshalUser := fun raw => if raw = emptyObjectJSON then .ok "user" else .error demoSyntaxError
    unmarshalMember := fun raw =>
      if raw = emptyObjectJSON then .ok "member" else .error demoSyntaxError
    unmarshalEntitlement := fun raw =>
      if raw = emptyObjectJSON then .ok "entitlement" else .error demoSyntaxError
    unmarshalEntitlements := fun raw =>
      if raw = "[]" then ([], none) else ([], some demoTypeError)
    parseJSON := fun raw =>
      if raw = emptyObjectJSON then some (.obj [])
      else if raw = numericIdJSON then some (.obj [("id", .num "5")])
      else none
    StringToSnowflake := fun s => if s = "123" then .ok 123 else .error "invalid snowflake"
    base64Decode := fun s => if s = "MTIz" then .ok "123" else .error "illegal base64 data"
    NewRest := fun _ => demoRest }

/-- Handlers that only note which slot ran and on what payload. -/
def demoOptions : ClientOptions demoT :=
  { Token := "MTIz.abc.def"
    EventHandler := some (fun _ packet => [Effect.app ("generic " ++ packet.Event)])
    MessageHandler := some (fun msg => [Effect.app ("message " ++ msg.Content)])
    CommandInteractionHandler := some (fun itx => [Effect.app ("command " ++ itx.Data)])
    ComponentInteractionHandler := some (fun itx => [Effect.app ("component " ++ itx.Data)])
    ModalInteractionHandler := some (fun itx => [Effect.app ("modal " ++ itx.Data)])
    AcceptMessageContent := true
    RespectRateLimits := true
    Trace := false }

/-- The client `NewClient` builds from `demoOptions`. -/
def demoClient : Client demoT :=
  { ApplicationID := 123
    Rest := demoRest
    respectRateLimits := true
    Trace := false
    customEventHandler := demoOptions.EventHandler
    messageHandler := fun msg => [Effect.app ("message " ++ msg.Content)]
    commandInteractionHandler := fun itx => [Effect.app ("command " ++ itx.Data)]
    componentInteractionHandler := fun itx => [Effect.app ("component " ++ itx.Data)]
    modalInteractionHandler := fun itx => [Effect.app ("modal " ++ itx.Data)] }

/-- Options that leave every handler entry nil. -/
def bareOptions : ClientOptions demoT :=
  { Token := "Bot MTIz.abc.def"
    EventHandler := none
    MessageHandler := none
    CommandInteractionHandler := none
    ComponentInteractionHandler := none
    ModalInteractionHandler := none
    AcceptMessageContent := false
    RespectRateLimits := false
    Trace := false }

/-- The client `NewClient` builds from `bareOptions`. -/
def bareClient : Client demoT :=
  { ApplicationID := 123
    Rest := demoRest
    respectRateLimits := false
    Trace := false
    customEventHandler := none
    messageHandler := undefinedMessageHandler
    commandInteractionHandler := undefinedCommandHandler
    componentInteractionHandler := undefinedComponentHandler
    modalInteractionHandler := undefinedModalHandler }

/-- The effects of the generic handler of a client on a packet, none when the slot is
nil: the first statement of `eventHandler`. -/
def genericPart {T : Tempest} (client : Client T) (shardID : Nat) (packet : EventPacket) :
    List Effect :=
  match client.customEventHandler with
  | some h => h shardID packet
  | none => []

/-- Whether a call is a call on the rate limiter. -/
def Call.isLimiterCall {T : Tempest} : Call T → Bool
  | .WaitOrSet _ _ _ => true
  | _ => false

/-- Whether a call is a call on the transport. -/
def Call.isTransportCall {T : Tempest} : Call T → Bool
  | .WaitOrSet _ _ _ => false
  | _ => true

/-- A transport that answers every request with `{"id":5}`. -/
def numericIdRest : Rest demoT :=
  { Request := fun _ _ _ => .ok numericIdJSON
    RequestWithFiles := fun _ _ _ _ => .ok numericIdJSON }

/-- The demo client on the transport `numericIdRest`. -/
def numericIdClient : Client demoT := { demoClient with Rest := numericIdRest }

/-- The route `FetchEntitlementsPage` asks for on a filter that starts with the
character `c`. -/
def entitlementsRoute {T : Tempest} (client : Client T) (c : Char) (cs : List Char) : String :=
  "/applications/" ++ snowflakeString client.ApplicationID ++ "/entitlements" ++
    (if c = '?' then String.mk (c :: cs) else "?" ++ String.mk (c :: cs))

/-! ## Checks of the embedding on concrete inputs -/

theorem demo_NewClient : NewClient demoLib demoOptions = .returned (demoClient, []) := by
  rfl

theorem demo_NewClient_bare : NewClient demoLib bareOptions = .returned (bareClient, []) := by
  rfl

theorem demo_command :
    eventHandler demoLib demoClient 3 ⟨INTERACTION_CREATE_EVENT, commandJSON⟩ =
      [Effect.app "generic INTERACTION_CREATE", Effect.app "command ping"] := by
  decide

theorem demo_ping :
    eventHandler demoLib demoClient 3 ⟨INTERACTION_CREATE_EVENT, pingJSON⟩ =
      [Effect.app "generic INTERACTION_CREATE"] := by
  rfl

theorem demo_message_packet :
    eventHandler demoLib demoClient 0 ⟨"MESSAGE_CREATE", messageJSON⟩ =
      [Effect.app "generic MESSAGE_CREATE"] := by
  decide

/-! ## Interaction routing -/

/-- C1: for an interaction-create packet whose payload decodes as an envelope `env`,
the effects of `eventHandler` are those of the generic handler (none when the slot is
nil) followed by those of exactly one call of one typed handler: the command handler
when the type is command or autocomplete, the component handler when it is component,
the modal handler when it is modal-submit, each time on the payload decoded from the
data of the envelope and an interaction carrying the shard and the client.  For any
other type they are those of the generic handler alone: no typed handler runs and no
trace line is printed.  The equations hold whatever functions fill the handler slots,
which is what makes the call counts exact. -/
theorem eventHandler_dispatch_by_type {T : Tempest} (lib : Lib T) (client : Client T)
    (shardID : Nat) (packet : EventPacket) (env : TempestInteraction)
    (hevent : packet.Event = INTERACTION_CREATE_EVENT)
    (henv : lib.unmarshalInteraction packet.Data = .ok env) :
    (∀ data,
      env.Type_ = APPLICATION_COMMAND_INTERACTION_TYPE ∨
        env.Type_ = APPLICATION_COMMAND_AUTO_COMPLETE_INTERACTION_TYPE →
      lib.unmarshalCommandData env.Data = .ok data →
      eventHandler lib client shardID packet =
        genericPart client shardID packet ++
          client.commandInteractionHandler
            { Interaction :=
                { toTempestInteraction := env, ShardID := shardID,
                  Client := client.toClientCore },
              Data := data }) ∧
    (∀ data,
      env.Type_ = MESSAGE_COMPONENT_INTERACTION_TYPE →
      lib.unmarshalComponentData env.Data = .ok data →
      eventHandler lib client shardID packet =
        genericPart client shardID packet ++
          client.componentInteractionHandler
            { Interaction :=
                { toTempestInteraction := env, ShardID := shardID,
                  Client := client.toClientCore },
              Data := data }) ∧
    (∀ data,
      env.Type_ = MODAL_SUBMIT_INTERACTION_TYPE →
      lib.unmarshalModalData env.Data = .ok data →
      eventHandler lib client shardID packet =
        genericPart client shardID packet ++
          client.modalInteractionHandler
            { Interaction :=
                { toTempestInteraction := env, ShardID := shardID,
                  Client := client.toClientCore },
              Data := data }) ∧
    (env.Type_ ≠ APPLICATION_COMMAND_INTERACTION_TYPE →
      env.Type_ ≠ APPLICATION_COMMAND_AUTO_COMPLETE_INTERACTION_TYPE →
      env.Type_ ≠ MESSAGE_COMPONENT_INTERACTION_TYPE →
      env.Type_ ≠ MODAL_SUBMIT_INTERACTION_TYPE →
      eventHandler lib client shardID packet = genericPart client shardID packet) := by
  refine ⟨?_, ?_, ?_, ?_⟩
  · intro data htype hdata
    simp only [eventHandler, genericPart, hevent, henv, ne_eq, not_true_eq_false, if_false,
      if_pos htype, hdata]
  · intro data htype hdata
    have hnot : ¬ (env.Type_ = APPLICATION_COMMAND_INTERACTION_TYPE ∨
        env.Type_ = APPLICATION_COMMAND_AUTO_COMPLETE_INTERACTION_TYPE) := by
      rw [htype]; decide
    simp only [eventHandler, genericPart, hevent, henv, ne_eq, not_true_eq_false, if_false,
      if_neg hnot, if_pos htype, hdata]
  · intro data htype hdata
    have hnot : ¬ (env.Type_ = APPLICATION_COMMAND_INTERACTION_TYPE ∨
        env.Type_ = APPLICATION_COMMAND_AUTO_COMPLETE_INTERACTION_TYPE) := by
      rw [htype]; decide
    have hnot2 : ¬ env.Type_ = MESSAGE_COMPONENT_INTERACTION_TYPE := by
      rw [htype]; decide
    simp only [eventHandler, genericPart, hevent, henv, ne_eq, not_true_eq_false, if_false,
      if_neg hnot, if_neg hnot2, if_pos htype, hdata]
  · intro h2 h4 h3 h5
    have hnot : ¬ (env.Type_ = APPLICATION_COMMAND_INTERACTION_TYPE ∨
        env.Type_ = APPLICATION_COMMAND_AUTO_COMPLETE_INTERACTION_TYPE) := by
      rintro (h | h)
      · exact h2 h
      · exact h4 h
    simp only [eventHandler, genericPart, hevent, henv, ne_eq, not_true_eq_false, if_false,
      if_neg hnot, if_neg h3, if_neg h5, List.append_nil]

/-- C1 at two concrete packets: the command packet runs the command handler of the
demo client once on the decoded payload, the ping packet runs no typed handler. -/
theorem eventHandler_dispatch_by_type_witness :
    eventHandler demoLib demoClient 3 ⟨INTERACTION_CREATE_EVENT, commandJSON⟩ =
        genericPart demoClient 3 ⟨INTERACTION_CREATE_EVENT, commandJSON⟩ ++
          demoClient.commandInteractionHandler
            { Interaction :=
                { toTempestInteraction := { Type_ := 2, Data := pingData }, ShardID := 3,
                  Client := demoClient.toClientCore },
              Data := "ping" } ∧
      eventHandler demoLib demoClient 3 ⟨INTERACTION_CREATE_EVENT, pingJSON⟩ =
        genericPart demoClient 3 ⟨INTERACTION_CREATE_EVENT, pingJSON⟩ :=
  ⟨(eventHandler_dispatch_by_type demoLib demoClient 3
      ⟨INTERACTION_CREATE_EVENT, commandJSON⟩ { Type_ := 2, Data := pingData } rfl
      rfl).1 "ping" (Or.inl rfl) rfl,
    (eventHandler_dispatch_by_type demoLib demoClient 3
      ⟨INTERACTION_CREATE_EVENT, pingJSON⟩ { Type_ := 1, Data := "" } rfl
      rfl).2.2.2 (by decide) (by decide) (by decide) (by decide)⟩

/-- C2: for an interaction-create packet that fails to decode, at the envelope or at
the data of a command, autocomplete, component or modal-submit envelope, the effects
of `eventHandler` are those of the generic handler followed by exactly one trace line,
whose format names the stage that failed and whose argument is the decode error: no
typed handler runs, whatever fills the slots.  The four formats are pairwise
different.  The function has no panicking path: it always returns its effects. -/
theorem eventHandler_decode_failure {T : Tempest} (lib : Lib T) (client : Client T)
    (shardID : Nat) (packet : EventPacket)
    (hevent : packet.Event = INTERACTION_CREATE_EVENT) :
    (∀ err, lib.unmarshalInteraction packet.Data = .error err →
      eventHandler lib client shardID packet =
        genericPart client shardID packet ++
          [Effect.Printf ("[CLIENT] " ++ envelopeFailFormat) [err]]) ∧
    (∀ env err, lib.unmarshalInteraction packet.Data = .ok env →
      env.Type_ = APPLICATION_COMMAND_INTERACTION_TYPE ∨
        env.Type_ = APPLICATION_COMMAND_AUTO_COMPLETE_INTERACTION_TYPE →
      lib.unmarshalCommandData env.Data = .error err →
      eventHandler lib client shardID packet =
        genericPart client shardID packet ++
          [Effect.Printf ("[CLIENT] " ++ commandFailFormat) [err]]) ∧
    (∀ env err, lib.unmarshalInteraction packet.Data = .ok env →
      env.Type_ = MESSAGE_COMPONENT_INTERACTION_TYPE →
      lib.unmarshalComponentData env.Data = .error err →
      eventHandler lib client shardID packet =
        genericPart client shardID packet ++
          [Effect.Printf ("[CLIENT] " ++ componentFailFormat) [err]]) ∧
    (∀ env err, lib.unmarshalInteraction packet.Data = .ok env →
      env.Type_ = MODAL_SUBMIT_INTERACTION_TYPE →
      lib.unmarshalModalData env.Data = .error err →
      eventHandler lib client shardID packet =
        genericPart client shardID packet ++
          [Effect.Printf ("[CLIENT] " ++ modalFailFormat) [err]]) ∧
    [envelopeFailFormat, commandFailFormat, componentFailFormat, modalFailFormat].Nodup := by
  refine ⟨?_, ?_, ?_, ?_, by decide⟩
  · intro err henv
    simp only [eventHandler, genericPart, hevent, henv, ne_eq, not_true_eq_false, if_false,
      ClientCore.tracef]
  · intro env err henv htype hdata
    simp only [eventHandler, genericPart, hevent, henv, ne_eq, not_true_eq_false, if_false,
      if_pos htype, hdata, ClientCore.tracef]
  · intro env err henv htype hdata
    have hnot : ¬ (env.Type_ = APPLICATION_COMMAND_INTERACTION_TYPE ∨
        env.Type_ = APPLICATION_COMMAND_AUTO_COMPLETE_INTERACTION_TYPE) := by
      rw [htype]; decide
    simp only [eventHandler, genericPart, hevent, henv, ne_eq, not_true_eq_false, if_false,
      if_neg hnot, if_pos htype, hdata, ClientCore.tracef]
  · intro env err henv htype hdata
    have hnot : ¬ (env.Type_ = APPLICATION_COMMAND_INTERACTION_TYPE ∨
        env.Type_ = APPLICATION_COMMAND_AUTO_COMPLETE_INTERACTION_TYPE) := by
      rw [htype]; decide
    have hnot2 : ¬ env.Type_ = MESSAGE_COMPONENT_INTERACTION_TYPE := by
      rw [htype]; decide
    simp only [eventHandler, genericPart, hevent, henv, ne_eq, not_true_eq_false, if_false,
      if_neg hnot, if_neg hnot2, if_pos htype, hdata, ClientCore.tracef]

/-- C2 at two concrete packets: a payload that is not an envelope, and a command
envelope whose data is not a command payload. -/
theorem eventHandler_decode_failure_witness :
    eventHandler demoLib demoClient 3 ⟨INTERACTION_CREATE_EVENT, ""⟩ =
        genericPart demoClient 3 ⟨INTERACTION_CREATE_EVENT, ""⟩ ++
          [Effect.Printf ("[CLIENT] " ++ envelopeFailFormat) [demoSyntaxError]] ∧
      eventHandler demoLib demoClient 3 ⟨INTERACTION_CREATE_EVENT, badCommandJSON⟩ =
        genericPart demoClient 3 ⟨INTERACTION_CREATE_EVENT, badCommandJSON⟩ ++
          [Effect.Printf ("[CLIENT] " ++ commandFailFormat) [demoTypeError]] :=
  ⟨(eventHandler_decode_failure demoLib demoClient 3 ⟨INTERACTION_CREATE_EVENT, ""⟩ rfl).1
      demoSyntaxError rfl,
    (eventHandler_decode_failure demoLib demoClient 3
      ⟨INTERACTION_CREATE_EVENT, badCommandJSON⟩ rfl).2.1
      { Type_ := 2, Data := "7" } demoTypeError rfl (Or.inl rfl) rfl⟩

/-- C3: a registered generic handler runs exactly once, on the shard and the packet as
received, before anything else, and what follows is what the same client does with no
generic handler registered; and when the event of the packet is not the
interaction-create event the effects are those of the generic handler alone (none when
the slot is nil): no typed handler runs and no trace line is printed. -/
theorem eventHandler_generic_first {T : Tempest} (lib : Lib T) (client : Client T)
    (shardID : Nat) (packet : EventPacket) :
    (∀ g : Nat → EventPacket → List Effect,
      eventHandler lib { client with customEventHandler := some g } shardID packet =
        g shardID packet ++
          eventHandler lib { client with customEventHandler := none } shardID packet) ∧
    (packet.Event ≠ INTERACTION_CREATE_EVENT →
      eventHandler lib { client with customEventHandler := none } shardID packet = [] ∧
      eventHandler lib client shardID packet = genericPart client shardID packet) := by
  refine ⟨?_, ?_⟩
  · intro g
    simp only [eventHandler, List.nil_append, ClientCore.tracef]
  · intro hevent
    simp only [eventHandler, genericPart, if_pos hevent, List.append_nil, and_self]

/-- C3 at a message-create packet on the demo client. -/
theorem eventHandler_generic_first_witness :
    eventHandler demoLib { demoClient with customEventHandler := none } 7
        ⟨"MESSAGE_CREATE", messageJSON⟩ = [] ∧
      eventHandler demoLib demoClient 7 ⟨"MESSAGE_CREATE", messageJSON⟩ =
        genericPart demoClient 7 ⟨"MESSAGE_CREATE", messageJSON⟩ :=
  (eventHandler_generic_first demoLib demoClient 7 ⟨"MESSAGE_CREATE", messageJSON⟩).2
    (by decide)

/-! ## Handler registry -/

/-- C7, the claim as stated fails: built from options whose `EventHandler` is nil, the
client holds nil in its generic-event slot, not a stub, and dispatching a packet then
prints nothing for that slot. -/
theorem NewClient_generic_slot_stays_nil :
    bareOptions.EventHandler = none ∧
      ∃ client : Client demoT,
        NewClient demoLib bareOptions = .returned (client, []) ∧
          client.customEventHandler = none ∧
          eventHandler demoLib client 0 ⟨"MESSAGE_CREATE", messageJSON⟩ = [] :=
  ⟨rfl, bareClient, rfl, rfl, by decide⟩

/-- C7 as amended: in a client built by `NewClient`, each of the message, command,
component and modal slots holds the default stub of its category when the entry of the
configuration is nil and exactly the supplied handler otherwise; each stub, when
invoked, prints one trace line saying that its category has no handler, and the four
lines are pairwise different.  The generic-event slot holds the entry of the
configuration as it is: it has no stub, and a nil entry stays nil. -/
theorem NewClient_handler_slots {T : Tempest} (lib : Lib T) (opt : ClientOptions T)
    (client : Client T) (effects : List Effect)
    (hnew : NewClient lib opt = .returned (client, effects)) :
    client.customEventHandler = opt.EventHandler ∧
    (opt.MessageHandler = none → client.messageHandler = undefinedMessageHandler) ∧
    (∀ h, opt.MessageHandler = some h → client.messageHandler = h) ∧
    (opt.CommandInteractionHandler = none →
      client.commandInteractionHandler = undefinedCommandHandler) ∧
    (∀ h, opt.CommandInteractionHandler = some h → client.commandInteractionHandler = h) ∧
    (opt.ComponentInteractionHandler = none →
      client.componentInteractionHandler = undefinedComponentHandler) ∧
    (∀ h, opt.ComponentInteractionHandler = some h →
      client.componentInteractionHandler = h) ∧
    (opt.ModalInteractionHandler = none →
      client.modalInteractionHandler = undefinedModalHandler) ∧
    (∀ h, opt.ModalInteractionHandler = some h → client.modalInteractionHandler = h) ∧
    (∀ msg : Message T,
      undefinedMessageHandler msg =
        [Effect.Printf ("[CLIENT] " ++ undefinedMessageFormat) []]) ∧
    (∀ itx : CommandInteraction T,
      undefinedCommandHandler itx =
        [Effect.Printf ("[CLIENT] " ++ undefinedCommandFormat) []]) ∧
    (∀ itx : ComponentInteraction T,
      undefinedComponentHandler itx =
        [Effect.Printf ("[CLIENT] " ++ undefinedComponentFormat) []]) ∧
    (∀ itx : ModalInteraction T,
      undefinedModalHandler itx =
        [Effect.Printf ("[CLIENT] " ++ undefinedModalFormat) []]) ∧
    [undefinedMessageFormat, undefinedCommandFormat, undefinedComponentFormat,
      undefinedModalFormat].Nodup := by
  refine ⟨?_, ?_, ?_, ?_, ?_, ?_, ?_, ?_, ?_, fun _ => rfl, fun _ => rfl, fun _ => rfl,
    fun _ => rfl, by decide⟩ <;>
  · unfold NewClient at hnew
    simp only at hnew
    split at hnew
    · cases hnew
    · split at hnew
      · cases hnew
      · cases hM : opt.MessageHandler <;> cases hC : opt.CommandInteractionHandler <;>
          cases hK : opt.ComponentInteractionHandler <;>
          cases hD : opt.ModalInteractionHandler <;>
          cases hR : opt.RespectRateLimits <;> cases hT : opt.Trace <;>
          simp only [hM, hC, hK, hD, hR, hT, if_true, if_false, Bool.false_eq_true,
            Result.returned.injEq, Prod.mk.injEq] at hnew <;>
          obtain ⟨rfl, -⟩ := hnew <;> simp

/-- C7 as amended, at the options that leave every entry nil. -/
theorem NewClient_handler_slots_witness :
    bareClient.customEventHandler = bareOptions.EventHandler ∧
      bareClient.commandInteractionHandler = undefinedCommandHandler ∧
      bareClient.componentInteractionHandler = undefinedComponentHandler ∧
      bareClient.modalInteractionHandler = undefinedModalHandler :=
  have h := NewClient_handler_slots demoLib bareOptions bareClient [] rfl
  ⟨h.1, h.2.2.2.1 rfl, h.2.2.2.2.2.1 rfl, h.2.2.2.2.2.2.2.1 rfl⟩

/-- C8, what the code does: the effects of `eventHandler` do not depend on the message
handler of the client, so no packet makes it run; on a message-create packet the demo
client, whose message handler would note the content of the message, produces the note
of its generic handler and nothing else. -/
theorem eventHandler_never_runs_messageHandler :
    (∀ (T : Tempest) (lib : Lib T) (client : Client T) (h : Message T → List Effect)
        (shardID : Nat) (packet : EventPacket),
        eventHandler lib { client with messageHandler := h } shardID packet =
          eventHandler lib client shardID packet) ∧
      demoClient.messageHandler
          { toTempestMessage := { ID := 1, ChannelID := 2, Content := "hi" }, ShardID := 0,
            Client := demoClient.toClientCore, replyMsgID := 0 } =
        [Effect.app "message hi"] ∧
      eventHandler demoLib demoClient 0 ⟨"MESSAGE_CREATE", messageJSON⟩ =
        [Effect.app "generic MESSAGE_CREATE"] := by
  refine ⟨?_, by decide, by decide⟩
  intro T lib client h shardID packet
  rfl

/-! ## Rate limiter -/

theorem store_buckets_self (rl : RateLimiter) (key : Snowflake) (b : RateLimiterBucket) :
    (rl.store key b).buckets key = some b := by
  simp [RateLimiter.store]

/-- One call on a bucket that was reset less than a window ago and still has a token:
no wait, one token less, same reset instant. -/
theorem WaitOrSet_token_left (rl : RateLimiter) (now : Nat) (key : Snowflake)
    (capacity window : Nat) (b : RateLimiterBucket) (hb : rl.buckets key = some b)
    (hwin : now - b.lastRegenAt < window) (htok : 0 < b.availableTokens) :
    rl.WaitOrSet now key capacity window =
      (rl.store key { b with availableTokens := b.availableTokens - 1 }, 0) := by
  have hnot : ¬ now - b.lastRegenAt ≥ window := Nat.not_le.mpr hwin
  simp only [RateLimiter.WaitOrSet, hb, if_neg hnot, gt_iff_lt, if_pos htok]

/-- One call on a bucket that was reset less than a window ago and has no token left:
the call blocks for the rest of the window and leaves a bucket reset at the instant
reached, one token consumed. -/
theorem WaitOrSet_exhausted (rl : RateLimiter) (now : Nat) (key : Snowflake)
    (capacity window : Nat) (b : RateLimiterBucket) (hb : rl.buckets key = some b)
    (hwin : now - b.lastRegenAt < window) (htok : b.availableTokens = 0) :
    rl.WaitOrSet now key capacity window =
      (rl.store key
        { b with availableTokens := (capacity : Int) - 1,
                 lastRegenAt := now + (window - (now - b.lastRegenAt)) },
        window - (now - b.lastRegenAt)) := by
  have hnot : ¬ now - b.lastRegenAt ≥ window := Nat.not_le.mpr hwin
  have hno : ¬ b.availableTokens > 0 := by rw [htok]; decide
  simp only [RateLimiter.WaitOrSet, hb, if_neg hnot, if_neg hno]

/-- Calls inside the window of the last reset, no more than there are tokens: none of
them waits, each consumes one token, and the reset instant stays. -/
theorem callsInSequence_tokens_left (key : Snowflake) (capacity window : Nat)
    (arrivals : List Nat) :
    ∀ (rl : RateLimiter) (b : RateLimiterBucket), rl.buckets key = some b →
      (arrivals.length : Int) ≤ b.availableTokens →
      (∀ a ∈ arrivals, a - b.lastRegenAt < window) →
      (callsInSequence rl key capacity window arrivals).2 =
          List.replicate arrivals.length 0 ∧
        (callsInSequence rl key capacity window arrivals).1.buckets key =
          some { b with availableTokens := b.availableTokens - arrivals.length } := by
  induction arrivals with
  | nil =>
    intro rl b hb _ _
    simp [callsInSequence, hb]
  | cons t ts ih =>
    intro rl b hb hlen hwin
    have htok : 0 < b.availableTokens := by
      have : ((t :: ts).length : Int) = (ts.length : Int) + 1 := by simp
      omega
    have hstep := WaitOrSet_token_left rl t key capacity window b hb
      (hwin t (List.mem_cons_self t ts)) htok
    have hlen2 : (ts.length : Int) ≤ b.availableTokens - 1 := by
      have : ((t :: ts).length : Int) = (ts.length : Int) + 1 := by simp
      omega
    have hrec := ih (rl.store key { b with availableTokens := b.availableTokens - 1 })
      { b with availableTokens := b.availableTokens - 1 }
      (store_buckets_self rl key _) hlen2
      (fun a ha => hwin a (List.mem_cons_of_mem t ha))
    simp only [callsInSequence, hstep, List.length_cons, List.replicate_succ]
    refine ⟨by rw [hrec.1], ?_⟩
    rw [hrec.2]
    congr 2
    push_cast
    ring

/-- C4: on a key that has no bucket, `C >= 1` calls followed by one more, all made
with capacity `C` and window `W` at non-decreasing instants less than `W` after the
first: none of the first `C` calls waits, they leave the bucket empty with the instant
of the first call as its last reset, and call `C + 1` blocks for `W` minus the time
elapsed since that reset (a positive time) and leaves exactly `C - 1` tokens in the
bucket. -/
theorem WaitOrSet_exhaust_then_wait (rl : RateLimiter) (key : Snowflake) (C W : Nat)
    (t0 : Nat) (rest : List Nat) (t : Nat)
    (hfresh : rl.buckets key = none)
    (hC : (t0 :: rest).length = C)
    (hsorted : List.Pairwise (fun a b => a ≤ b) (t0 :: rest ++ [t]))
    (hwin : t < t0 + W) :
    (callsInSequence rl key C W (t0 :: rest)).2 = List.replicate C 0 ∧
      ∃ b, (callsInSequence rl key C W (t0 :: rest)).1.buckets key = some b ∧
        b.availableTokens = 0 ∧ b.lastRegenAt = t0 ∧
        W - (t - b.lastRegenAt) ≤
          ((callsInSequence rl key C W (t0 :: rest)).1.WaitOrSet t key C W).2 ∧
        0 < ((callsInSequence rl key C W (t0 :: rest)).1.WaitOrSet t key C W).2 ∧
        ∃ b1,
          ((callsInSequence rl key C W (t0 :: rest)).1.WaitOrSet t key C W).1.buckets key =
            some b1 ∧
          b1.availableTokens = (C : Int) - 1 := by
  have hall : ∀ a ∈ rest, t0 ≤ a ∧ a ≤ t := by
    intro a ha
    have h1 := List.pairwise_append.mp hsorted
    have h2 := List.pairwise_cons.mp h1.1
    exact ⟨h2.1 a ha, h1.2.2 a (List.mem_cons_of_mem t0 ha) t (List.mem_singleton.mpr rfl)⟩
  have ht0 : t0 ≤ t := by
    have h1 := List.pairwise_append.mp hsorted
    exact h1.2.2 t0 (List.mem_cons_self t0 rest) t (List.mem_singleton.mpr rfl)
  have hlenC : rest.length + 1 = C := by simpa using hC
  -- the first call creates the bucket
  have hfirst : rl.WaitOrSet t0 key C W =
      (rl.store key
        { availableTokens := (C : Int) - 1, lastRegenAt := t0, capacity := C, window := W },
        0) := by
    simp only [RateLimiter.WaitOrSet, hfresh]
  have hrest := callsInSequence_tokens_left key C W rest
    (rl.store key
      { availableTokens := (C : Int) - 1, lastRegenAt := t0, capacity := C, window := W })
    { availableTokens := (C : Int) - 1, lastRegenAt := t0, capacity := C, window := W }
    (store_buckets_self rl key _)
    (by show (rest.length : Int) ≤ (C : Int) - 1; omega)
    (by
      intro a ha
      have := hall a ha
      show a - t0 < W
      omega)
  have hstate : (callsInSequence rl key C W (t0 :: rest)).1.buckets key =
      some { availableTokens := 0, lastRegenAt := t0, capacity := C, window := W } := by
    simp only [callsInSequence, hfirst]
    rw [hrest.2]
    congr 2
    show (C : Int) - 1 - (rest.length : Int) = 0
    omega
  have hlast := WaitOrSet_exhausted (callsInSequence rl key C W (t0 :: rest)).1 t key C W
    { availableTokens := 0, lastRegenAt := t0, capacity := C, window := W } hstate
    (by show t - t0 < W; omega) rfl
  refine ⟨?_, _, hstate, rfl, rfl, ?_, ?_, ?_⟩
  · simp only [callsInSequence, hfirst]
    rw [hrest.1, ← hlenC, List.replicate_succ]
  · rw [hlast]
  · rw [hlast]
    show 0 < W - (t - t0)
    omega
  · rw [hlast]
    exact ⟨_, store_buckets_self _ key _, rfl⟩

/-- C4 for the message policy: six calls at instants 0 to 5 ns on a limiter with no
bucket, capacity 5 and window 5 s; the first five calls do not wait, the sixth blocks
for the rest of the window and leaves 4 tokens. -/
theorem WaitOrSet_exhaust_then_wait_witness :
    (callsInSequence NewRateLimiter 77 5 (5 * Second) [0, 1, 2, 3, 4]).2 = [0, 0, 0, 0, 0] ∧
      ∃ b,
        (callsInSequence NewRateLimiter 77 5 (5 * Second) [0, 1, 2, 3, 4]).1.buckets 77 =
          some b ∧
        b.availableTokens = 0 ∧ b.lastRegenAt = 0 ∧
        5 * Second - (5 - b.lastRegenAt) ≤
          ((callsInSequence NewRateLimiter 77 5 (5 * Second) [0, 1, 2, 3, 4]).1.WaitOrSet 5 77
            5 (5 * Second)).2 ∧
        0 < ((callsInSequence NewRateLimiter 77 5 (5 * Second) [0, 1, 2, 3, 4]).1.WaitOrSet 5 77
            5 (5 * Second)).2 ∧
        ∃ b1,
          ((callsInSequence NewRateLimiter 77 5 (5 * Second) [0, 1, 2, 3, 4]).1.WaitOrSet 5 77
            5 (5 * Second)).1.buckets 77 = some b1 ∧
          b1.availableTokens = 4 :=
  WaitOrSet_exhaust_then_wait NewRateLimiter 77 5 (5 * Second) 0 [1, 2, 3, 4] 5 rfl rfl
    (by decide) (by decide)

/-- Scenario 3 of the specification evaluated: the waits of six calls made at instants
0 to 5 ns, and the bucket they leave. -/
theorem demo_scenario3 :
    (callsInSequence NewRateLimiter 77 message_rate message_regen_time
        [0, 1, 2, 3, 4, 5]).2 = [0, 0, 0, 0, 0, 4999999995] ∧
      (callsInSequence NewRateLimiter 77 message_rate message_regen_time
        [0, 1, 2, 3, 4, 5]).1.buckets 77 =
        some { availableTokens := 4, lastRegenAt := 5000000000, capacity := 5,
               window := 5000000000 } := by
  decide

/-! ## Outbound call surface -/

/-- C5, the claim as stated fails: on the demo client, which respects rate limits,
`FetchEntitlement` makes its transport request and no call on the limiter. -/
theorem FetchEntitlement_skips_limiter :
    demoClient.respectRateLimits = true ∧
      (FetchEntitlement demoLib demoClient 9).calls =
        [Call.Request "GET" "/applications/123/entitlements/9" .nil] :=
  ⟨rfl, rfl⟩

theorem message_policy : message_rate = 5 ∧ message_regen_time = 5 * Second := by
  decide

theorem target_policy : target_rate = 10 ∧ target_regen_time = 1 * Second := by
  decide

/-- C5 as amended: on a client that respects rate limits, send, edit, delete and
crosspost message call the limiter once, keyed by the target channel with capacity 5
per 5 s, and then the transport once; fetch user and fetch member do the same with
capacity 10 per 1 s, keyed by the own application ID of the client and by the guild
ID.  The five entitlement operations make no call on the limiter, in either mode.  On
a client that does not respect rate limits these operations make their transport call
only. -/
theorem limiter_calls_by_operation {T : Tempest} (lib : Lib T) (client : Client T) :
    (client.respectRateLimits = true →
      (∀ channelID message files,
        (SendMessage lib client channelID message files).calls =
          [Call.WaitOrSet channelID 5 (5 * Second),
            Call.RequestWithFiles MethodPost
              ("/channels/" ++ snowflakeString channelID ++ "/messages")
              (.message message) files]) ∧
      (∀ channelID messageID content,
        (EditMessage client channelID messageID content).calls =
          [Call.WaitOrSet channelID 5 (5 * Second),
            Call.Request MethodPatch
              ("/channels/" ++ snowflakeString channelID ++ "/messages/" ++
                snowflakeString messageID)
              (.message content)]) ∧
      (∀ channelID messageID,
        (DeleteMessage client channelID messageID).calls =
          [Call.WaitOrSet channelID 5 (5 * Second),
            Call.Request MethodDelete
              ("/channels/" ++ snowflakeString channelID ++ "/messages/" ++
                snowflakeString messageID)
              .nil]) ∧
      (∀ channelID messageID,
        (CrosspostMessage client channelID messageID).calls =
          [Call.WaitOrSet channelID 5 (5 * Second),
            Call.Request MethodPost
              ("/channels/" ++ snowflakeString channelID ++ "/messages/" ++
                snowflakeString messageID ++ "/crosspost")
              .nil]) ∧
      (∀ id,
        (FetchUser lib client id).calls =
          [Call.WaitOrSet client.ApplicationID 10 (1 * Second),
            Call.Request MethodGet ("/users/" ++ snowflakeString id) .nil]) ∧
      (∀ guildID memberID,
        (FetchMember lib client guildID memberID).calls =
          [Call.WaitOrSet guildID 10 (1 * Second),
            Call.Request MethodGet
              ("/guilds/" ++ snowflakeString guildID ++ "/members/" ++
                snowflakeString memberID)
              .nil])) ∧
    ((∀ queryFilter, ∀ c ∈ (FetchEntitlementsPage lib client queryFilter).calls,
        c.isLimiterCall = false) ∧
      (∀ entitlementID, ∀ c ∈ (FetchEntitlement lib client entitlementID).calls,
        c.isLimiterCall = false) ∧
      (∀ entitlementID, ∀ c ∈ (ConsumeEntitlement client entitlementID).calls,
        c.isLimiterCall = false) ∧
      (∀ payload, ∀ c ∈ (CreateTestEntitlement client payload).calls,
        c.isLimiterCall = false) ∧
      (∀ entitlementID, ∀ c ∈ (DeleteTestEntitlement client entitlementID).calls,
        c.isLimiterCall = false)) ∧
    (client.respectRateLimits = false →
      (∀ channelID message files,
        (SendMessage lib client channelID message files).calls =
          [Call.RequestWithFiles MethodPost
            ("/channels/" ++ snowflakeString channelID ++ "/messages")
            (.message message) files]) ∧
      (∀ channelID messageID content,
        (EditMessage client channelID messageID content).calls =
          [Call.Request MethodPatch
            ("/channels/" ++ snowflakeString channelID ++ "/messages/" ++
              snowflakeString messageID)
            (.message content)]) ∧
      (∀ channelID messageID,
        (DeleteMessage client channelID messageID).calls =
          [Call.Request MethodDelete
            ("/channels/" ++ snowflakeString channelID ++ "/messages/" ++
              snowflakeString messageID)
            .nil]) ∧
      (∀ channelID messageID,
        (CrosspostMessage client channelID messageID).calls =
          [Call.Request MethodPost
            ("/channels/" ++ snowflakeString channelID ++ "/messages/" ++
              snowflakeString messageID ++ "/crosspost")
            .nil]) ∧
      (∀ id,
        (FetchUser lib client id).calls =
          [Call.Request MethodGet ("/users/" ++ snowflakeString id) .nil]) ∧
      (∀ guildID memberID,
        (FetchMember lib client guildID memberID).calls =
          [Call.Request MethodGet
            ("/guilds/" ++ snowflakeString guildID ++ "/members/" ++
              snowflakeString memberID)
            .nil])) := by
  have hm := message_policy
  have ht := target_policy
  refine ⟨fun hon => ⟨?_, ?_, ?_, ?_, ?_, ?_⟩, ⟨?_, ?_, ?_, ?_, ?_⟩,
    fun hoff => ⟨?_, ?_, ?_, ?_, ?_, ?_⟩⟩
  · intro channelID message files
    simp only [SendMessage, limiterGate, hon, if_true, hm.1, hm.2]
    split <;> [rfl; (split <;> rfl)]
  · intro channelID messageID content
    simp only [EditMessage, messageOp, limiterGate, hon, if_true, hm.1, hm.2]
    split <;> rfl
  · intro channelID messageID
    simp only [DeleteMessage, messageOp, limiterGate, hon, if_true, hm.1, hm.2]
    split <;> rfl
  · intro channelID messageID
    simp only [CrosspostMessage, messageOp, limiterGate, hon, if_true, hm.1, hm.2]
    split <;> rfl
  · intro id
    simp only [FetchUser, limiterGate, hon, if_true, ht.1, ht.2]
    split <;> [rfl; (split <;> rfl)]
  · intro guildID memberID
    simp only [FetchMember, limiterGate, hon, if_true, ht.1, ht.2]
    split <;> [rfl; (split <;> rfl)]
  · intro queryFilter c hc
    unfold FetchEntitlementsPage at hc
    split at hc
    · simp at hc
    · simp only at hc
      split at hc
      · simp only [List.mem_singleton] at hc
        rw [hc]; rfl
      · split at hc <;>
        · simp only [List.mem_singleton] at hc
          rw [hc]; rfl
  · intro entitlementID c hc
    unfold FetchEntitlement at hc
    simp only at hc
    split at hc
    · simp only [List.mem_singleton] at hc
      rw [hc]; rfl
    · split at hc <;>
      · simp only [List.mem_singleton] at hc
        rw [hc]; rfl
  · intro entitlementID c hc
    unfold ConsumeEntitlement entitlementOp at hc
    split at hc <;>
    · simp only [List.mem_singleton] at hc
      rw [hc]; rfl
  · intro payload c hc
    unfold CreateTestEntitlement entitlementOp at hc
    split at hc <;>
    · simp only [List.mem_singleton] at hc
      rw [hc]; rfl
  · intro entitlementID c hc
    unfold DeleteTestEntitlement entitlementOp at hc
    split at hc <;>
    · simp only [List.mem_singleton] at hc
      rw [hc]; rfl
  · intro channelID message files
    simp only [SendMessage, limiterGate, hoff, Bool.false_eq_true, if_false, List.nil_append]
    split <;> [rfl; (split <;> rfl)]
  · intro channelID messageID content
    simp only [EditMessage, messageOp, limiterGate, hoff, Bool.false_eq_true, if_false,
      List.nil_append]
    split <;> rfl
  · intro channelID messageID
    simp only [DeleteMessage, messageOp, limiterGate, hoff, Bool.false_eq_true, if_false,
      List.nil_append]
    split <;> rfl
  · intro channelID messageID
    simp only [CrosspostMessage, messageOp, limiterGate, hoff, Bool.false_eq_true, if_false,
      List.nil_append]
    split <;> rfl
  · intro id
    simp only [FetchUser, limiterGate, hoff, Bool.false_eq_true, if_false, List.nil_append]
    split <;> [rfl; (split <;> rfl)]
  · intro guildID memberID
    simp only [FetchMember, limiterGate, hoff, Bool.false_eq_true, if_false, List.nil_append]
    split <;> [rfl; (split <;> rfl)]

/-- C5 as amended, on the demo client (which respects rate limits) and on the bare
client (which does not). -/
theorem limiter_calls_by_operation_witness :
    (SendMessage demoLib demoClient 8 zeroMessage []).calls =
        [Call.WaitOrSet 8 5 (5 * Second),
          Call.RequestWithFiles MethodPost ("/channels/" ++ snowflakeString 8 ++ "/messages")
            (.message zeroMessage) []] ∧
      (FetchUser demoLib bareClient 8).calls =
        [Call.Request MethodGet ("/users/" ++ snowflakeString 8) .nil] :=
  ⟨((limiter_calls_by_operation demoLib demoClient).1 rfl).1 8 zeroMessage [],
    ((limiter_calls_by_operation demoLib bareClient).2.2 rfl).2.2.2.2.1 8⟩

/-- The parse error is a value of its own, never the error of the transport. -/
theorem parse_error_ne_rest_error (e : String) :
    GoError.new parseFailText ≠ GoError.rest e := by
  intro h
  cases h

/-- The three outcomes of `SendMessage`: one transport call; the error of the
transport handed back as it is; the parse error when the body does not decode; the
decoded message and no error otherwise. -/
theorem SendMessage_outcomes {T : Tempest} (lib : Lib T) (client : Client T)
    (channelID : Snowflake) (message : TempestMessage) (files : List T.File) :
    (SendMessage lib client channelID message files).calls.filter Call.isTransportCall =
        [Call.RequestWithFiles MethodPost
          ("/channels/" ++ snowflakeString channelID ++ "/messages") (.message message)
          files] ∧
      (∀ e,
        client.Rest.RequestWithFiles MethodPost
            ("/channels/" ++ snowflakeString channelID ++ "/messages") (.message message)
            files = .error e →
        (SendMessage lib client channelID message files).result =
          .returned (zeroMessage, some (.rest e))) ∧
      (∀ raw e,
        client.Rest.RequestWithFiles MethodPost
            ("/channels/" ++ snowflakeString channelID ++ "/messages") (.message message)
            files = .ok raw →
        lib.unmarshalMessage raw = .error e →
        (SendMessage lib client channelID message files).result =
          .returned (zeroMessage, some (.new parseFailText))) ∧
      (∀ raw res,
        client.Rest.RequestWithFiles MethodPost
            ("/channels/" ++ snowflakeString channelID ++ "/messages") (.message message)
            files = .ok raw →
        lib.unmarshalMessage raw = .ok res →
        (SendMessage lib client channelID message files).result = .returned (res, none)) := by
  refine ⟨?_, ?_, ?_, ?_⟩
  · have hcalls : (SendMessage lib client channelID message files).calls =
        limiterGate client channelID message_rate message_regen_time ++
          [Call.RequestWithFiles MethodPost
            ("/channels/" ++ snowflakeString channelID ++ "/messages") (.message message)
            files] := by
      simp only [SendMessage]
      split <;> [rfl; (split <;> rfl)]
    rw [hcalls]
    cases hr : client.respectRateLimits <;>
      simp [limiterGate, hr, Call.isTransportCall]
  · intro e h
    simp only [SendMessage, h]
  · intro raw e h hd
    simp only [SendMessage, h, hd]
  · intro raw res h hd
    simp only [SendMessage, h, hd]

/-- The three outcomes of `FetchUser`. -/
theorem FetchUser_outcomes {T : Tempest} (lib : Lib T) (client : Client T) (id : Snowflake) :
    (FetchUser lib client id).calls.filter Call.isTransportCall =
        [Call.Request MethodGet ("/users/" ++ snowflakeString id) .nil] ∧
      (∀ e,
        client.Rest.Request MethodGet ("/users/" ++ snowflakeString id) .nil = .error e →
        (FetchUser lib client id).result = .returned (T.zeroUser, some (.rest e))) ∧
      (∀ raw e,
        client.Rest.Request MethodGet ("/users/" ++ snowflakeString id) .nil = .ok raw →
        lib.unmarshalUser raw = .error e →
        (FetchUser lib client id).result =
          .returned (T.zeroUser, some (.new parseFailText))) ∧
      (∀ raw res,
        client.Rest.Request MethodGet ("/users/" ++ snowflakeString id) .nil = .ok raw →
        lib.unmarshalUser raw = .ok res →
        (FetchUser lib client id).result = .returned (res, none)) := by
  refine ⟨?_, ?_, ?_, ?_⟩
  · have hcalls : (FetchUser lib client id).calls =
        limiterGate client client.ApplicationID target_rate target_regen_time ++
          [Call.Request MethodGet ("/users/" ++ snowflakeString id) .nil] := by
      simp only [FetchUser]
      split <;> [rfl; (split <;> rfl)]
    rw [hcalls]
    cases hr : client.respectRateLimits <;>
      simp [limiterGate, hr, Call.isTransportCall]
  · intro e h
    simp only [FetchUser, h]
  · intro raw e h hd
    simp only [FetchUser, h, hd]
  · intro raw res h hd
    simp only [FetchUser, h, hd]

/-- The three outcomes of `FetchMember`. -/
theorem FetchMember_outcomes {T : Tempest} (lib : Lib T) (client : Client T)
    (guildID memberID : Snowflake) :
    (FetchMember lib client guildID memberID).calls.filter Call.isTransportCall =
        [Call.Request MethodGet
          ("/guilds/" ++ snowflakeString guildID ++ "/members/" ++ snowflakeString memberID)
          .nil] ∧
      (∀ e,
        client.Rest.Request MethodGet
            ("/guilds/" ++ snowflakeString guildID ++ "/members/" ++
              snowflakeString memberID) .nil = .error e →
        (FetchMember lib client guildID memberID).result =
          .returned (T.zeroMember, some (.rest e))) ∧
      (∀ raw e,
        client.Rest.Request MethodGet
            ("/guilds/" ++ snowflakeString guildID ++ "/members/" ++
              snowflakeString memberID) .nil = .ok raw →
        lib.unmarshalMember raw = .error e →
        (FetchMember lib client guildID memberID).result =
          .returned (T.zeroMember, some (.new parseFailText))) ∧
      (∀ raw res,
        client.Rest.Request MethodGet
            ("/guilds/" ++ snowflakeString guildID ++ "/members/" ++
              snowflakeString memberID) .nil = .ok raw →
        lib.unmarshalMember raw = .ok res →
        (FetchMember lib client guildID memberID).result = .returned (res, none)) := by
  refine ⟨?_, ?_, ?_, ?_⟩
  · have hcalls : (FetchMember lib client guildID memberID).calls =
        limiterGate client guildID target_rate target_regen_time ++
          [Call.Request MethodGet
            ("/guilds/" ++ snowflakeString guildID ++ "/members/" ++
              snowflakeString memberID) .nil] := by
      simp only [FetchMember]
      split <;> [rfl; (split <;> rfl)]
    rw [hcalls]
    cases hr : client.respectRateLimits <;>
      simp [limiterGate, hr, Call.isTransportCall]
  · intro e h
    simp only [FetchMember, h]
  · intro raw e h hd
    simp only [FetchMember, h, hd]
  · intro raw res h hd
    simp only [FetchMember, h, hd]

/-- The three outcomes of `FetchEntitlement`. -/
theorem FetchEntitlement_outcomes {T : Tempest} (lib : Lib T) (client : Client T)
    (entitlementID : Snowflake) :
    (FetchEntitlement lib client entitlementID).calls =
        [Call.Request MethodGet
          ("/applications/" ++ snowflakeString client.ApplicationID ++ "/entitlements/" ++
            snowflakeString entitlementID) .nil] ∧
      (∀ e,
        client.Rest.Request MethodGet
            ("/applications/" ++ snowflakeString client.ApplicationID ++ "/entitlements/" ++
              snowflakeString entitlementID) .nil = .error e →
        (FetchEntitlement lib client entitlementID).result =
          .returned (T.zeroEntitlement, some (.rest e))) ∧
      (∀ raw e,
        client.Rest.Request MethodGet
            ("/applications/" ++ snowflakeString client.ApplicationID ++ "/entitlements/" ++
              snowflakeString entitlementID) .nil = .ok raw →
        lib.unmarshalEntitlement raw = .error e →
        (FetchEntitlement lib client entitlementID).result =
          .returned (T.zeroEntitlement, some (.new parseFailText))) ∧
      (∀ raw res,
        client.Rest.Request MethodGet
            ("/applications/" ++ snowflakeString client.ApplicationID ++ "/entitlements/" ++
              snowflakeString entitlementID) .nil = .ok raw →
        lib.unmarshalEntitlement raw = .ok res →
        (FetchEntitlement lib client entitlementID).result = .returned (res, none)) := by
  refine ⟨?_, ?_, ?_, ?_⟩
  · simp only [FetchEntitlement]
    split <;> [rfl; (split <;> rfl)]
  · intro e h
    simp only [FetchEntitlement, h]
  · intro raw e h hd
    simp only [FetchEntitlement, h, hd]
  · intro raw res h hd
    simp only [FetchEntitlement, h, hd]

/-- The three outcomes of `FetchEntitlementsPage` on a filter that is not empty. -/
theorem FetchEntitlementsPage_outcomes {T : Tempest} (lib : Lib T) (client : Client T)
    (c : Char) (cs : List Char) :
    (FetchEntitlementsPage lib client (String.mk (c :: cs))).calls =
        [Call.Request MethodGet (entitlementsRoute client c cs) .nil] ∧
      (∀ e,
        client.Rest.Request MethodGet (entitlementsRoute client c cs) .nil = .error e →
        (FetchEntitlementsPage lib client (String.mk (c :: cs))).result =
          .returned ([], some (.rest e))) ∧
      (∀ raw e,
        client.Rest.Request MethodGet (entitlementsRoute client c cs) .nil = .ok raw →
        (lib.unmarshalEntitlements raw).2 = some e →
        (FetchEntitlementsPage lib client (String.mk (c :: cs))).result =
          .returned ((lib.unmarshalEntitlements raw).1, some (.new parseFailText))) ∧
      (∀ raw,
        client.Rest.Request MethodGet (entitlementsRoute client c cs) .nil = .ok raw →
        (lib.unmarshalEntitlements raw).2 = none →
        (FetchEntitlementsPage lib client (String.mk (c :: cs))).result =
          .returned ((lib.unmarshalEntitlements raw).1, none)) := by
  have hroute : ("/applications/" ++ snowflakeString client.ApplicationID ++ "/entitlements" ++
      (if c ≠ '?' then "?" ++ String.mk (c :: cs) else String.mk (c :: cs))) =
      entitlementsRoute client c cs := by
    unfold entitlementsRoute
    by_cases hc : c = '?' <;> simp [hc]
  refine ⟨?_, ?_, ?_, ?_⟩
  · simp only [FetchEntitlementsPage, hroute]
    split <;> [rfl; (split <;> rfl)]
  · intro e h
    simp only [FetchEntitlementsPage, hroute, h]
  · intro raw e h hd
    simp only [FetchEntitlementsPage, hroute, h]
    split
    · next res e2 heq => rw [heq]
    · next res heq => rw [heq] at hd; cases hd
  · intro raw h hd
    simp only [FetchEntitlementsPage, hroute, h]
    split
    · next res e2 heq => rw [heq] at hd; cases hd
    · next res heq => rw [heq]

/-- C6, what the code does on the empty filter: whatever the transport would answer,
`FetchEntitlementsPage` makes no transport call, and it does not return to its caller,
neither with the error of the transport nor with a decoded page: the index expression
on the empty text panics first. -/
theorem FetchEntitlementsPage_empty_filter_skips_transport :
    ∀ (T : Tempest) (lib : Lib T) (client : Client T),
      (FetchEntitlementsPage lib client "").calls.filter Call.isTransportCall = [] ∧
        ∀ v, (FetchEntitlementsPage lib client "").result ≠ .returned v := by
  intro T lib client
  refine ⟨rfl, ?_⟩
  intro v h
  have hres : (FetchEntitlementsPage lib client "").result = .panicked indexPanicText := rfl
  rw [hres] at h
  cases h

/-- C9, what the code does: on the empty filter `FetchEntitlementsPage` panics before
it issues any request; on a filter that starts with a character `c` it issues exactly
one GET, on the entitlements path of the application followed by the filter, which
gets a leading question mark exactly when `c` is not one. -/
theorem FetchEntitlementsPage_empty_filter_panics :
    ∀ (T : Tempest) (lib : Lib T) (client : Client T),
      FetchEntitlementsPage lib client "" = ⟨[], .panicked indexPanicText⟩ ∧
        ∀ (c : Char) (cs : List Char),
          (FetchEntitlementsPage lib client (String.mk (c :: cs))).calls =
            [Call.Request MethodGet
              ("/applications/" ++ snowflakeString client.ApplicationID ++ "/entitlements" ++
                (if c = '?' then String.mk (c :: cs) else "?" ++ String.mk (c :: cs)))
              .nil] := by
  intro T lib client
  refine ⟨rfl, ?_⟩
  intro c cs
  exact (FetchEntitlementsPage_outcomes lib client c cs).1

/-- C10, what the code does: when the channel-creation request succeeds and its body
is a JSON object or null that leaves no string under the key `id` in the map, the
unchecked type assertion panics: `SendPrivateMessage` does not return an error to its
caller.  It has made its limiter call (if any) and the channel-creation request, and
sends no message. -/
theorem SendPrivateMessage_panics_without_string_id {T : Tempest} (lib : Lib T)
    (client : Client T) (userID : Snowflake) (content : TempestMessage)
    (files : List T.File) (raw : Bytes) (m : List (String × MapVal))
    (hresp : client.Rest.Request MethodPost "/users/@me/channels" (.recipient userID) =
      .ok raw)
    (hmap : unmarshalIntoMap lib raw (mapSet [] "recipient_id" (.snowflake userID)) = some m)
    (hid : ∀ id, m.lookup "id" ≠ some (.json (.str id))) :
    SendPrivateMessage lib client userID content files =
      ⟨limiterGate client userID message_rate message_regen_time ++
          [Call.Request MethodPost "/users/@me/channels" (.recipient userID)],
        .panicked ("interface conversion: interface \x7b\x7d is " ++
          goTypeName (m.lookup "id") ++ ", not string")⟩ := by
  simp only [SendPrivateMessage, hresp, hmap]

/-- C10 at the bodies `{}` and `{"id":5}`: the panics that Go reports for a missing
and for a numeric `id`. -/
theorem SendPrivateMessage_panics_without_string_id_witness :
    SendPrivateMessage demoLib demoClient 42 zeroMessage [] =
        ⟨[Call.WaitOrSet 42 5 (5 * Second),
            Call.Request "POST" "/users/@me/channels" (.recipient 42)],
          .panicked "interface conversion: interface \x7b\x7d is nil, not string"⟩ ∧
      SendPrivateMessage demoLib numericIdClient 42 zeroMessage [] =
        ⟨[Call.WaitOrSet 42 5 (5 * Second),
            Call.Request "POST" "/users/@me/channels" (.recipient 42)],
          .panicked "interface conversion: interface \x7b\x7d is float64, not string"⟩ :=
  ⟨SendPrivateMessage_panics_without_string_id demoLib demoClient 42 zeroMessage []
      emptyObjectJSON [("recipient_id", .snowflake 42)] rfl rfl
      (by intro id h; simp [List.lookup] at h),
    SendPrivateMessage_panics_without_string_id demoLib numericIdClient 42 zeroMessage []
      numericIdJSON [("id", .json (.num "5")), ("recipient_id", .snowflake 42)] rfl rfl
      (by intro id h; simp [List.lookup] at h)⟩

end Qord
